import Mathlib

/-!
# The null storage provider of `server/world/provider.go`

A shallow embedding of the Go type `NoIOProvider` and of its nine methods, and
the properties the specification states about them.

Go values are embedded as follows.

* A pointer `*chunk.Chunk` is an `Option`: `none` is the nil pointer.
* A Go `error` is an `Option ErrorValue`: `none` is the nil error.
* A Go slice is a `Slice`: `Slice.nil` is the nil slice, `Slice.ofList xs` a
  non-nil slice holding `xs`; `Slice.len` is Go's `len`.
* `NoIOProvider` is `struct{}`: a structure without fields. Every method has a
  value receiver, so a call leaves the caller's provider as it was; `step`
  makes that explicit by returning the provider next to the result.
-/

namespace world

/-! ## Declarations used by `provider.go` -/

/-- Modelled from the spec: the type `ChunkPos` is declared outside `provider.go`;
the spec describes the chunk coordinate as an immutable pair of integers that
identifies one chunk column. -/
structure ChunkPos where
  x : Int
  z : Int
deriving DecidableEq

/-- The payload of a Go `error` that is not nil. -/
structure ErrorValue where
  msg : String
deriving DecidableEq

/-- A Go `error`; `none` is the nil error. -/
abbrev GoError := Option ErrorValue

/-- A Go slice with elements of type `α`: the nil slice, or a slice holding a list. -/
inductive Slice (α : Type) where
  | nil : Slice α
  | ofList : List α → Slice α
deriving DecidableEq

/-- Go's `len` on a slice; the nil slice has length zero. -/
def Slice.len {α : Type} : Slice α → Nat
  | .nil => 0
  | .ofList xs => xs.length

/-- Modelled from the spec: the declarations `provider.go` refers to and does not
contain. `Chunk` is `chunk.Chunk`, `SaveableEntity` and `Settings` are the types
of package `world` with those names, `Value` is what an `interface{}` inside a
block NBT map may hold, and `defaultSettings` is the result of the function
`defaultSettings()`, which the spec calls a fixed structural default. All of
them are parameters of the embedding: nothing below depends on what they are. -/
structure Decls where
  Chunk : Type
  SaveableEntity : Type
  Settings : Type
  Value : Type
  defaultSettings : Settings

/-- The Go type `map[string]interface{}`, one block entity. -/
abbrev BlockNBT (W : Decls) := List (String × W.Value)

/-! ## `NoIOProvider` -/

/-- The Go type `NoIOProvider struct{}`. -/
structure NoIOProvider where
deriving DecidableEq

namespace NoIOProvider

/-- `func (NoIOProvider) Settings() Settings { return defaultSettings() }` -/
def Settings (W : Decls) (_ : NoIOProvider) : W.Settings :=
  W.defaultSettings

/-- `func (NoIOProvider) SaveSettings(Settings) {}` -/
def SaveSettings (W : Decls) (_ : NoIOProvider) (_ : W.Settings) : Unit :=
  ()

/-- `func (NoIOProvider) LoadEntities(ChunkPos) ([]SaveableEntity, error)`: `return nil, nil`. -/
def LoadEntities (W : Decls) (_ : NoIOProvider) (_ : ChunkPos) :
    Slice W.SaveableEntity × GoError :=
  (Slice.nil, none)

/-- `func (NoIOProvider) SaveEntities(ChunkPos, []SaveableEntity) error`: `return nil`. -/
def SaveEntities (W : Decls) (_ : NoIOProvider) (_ : ChunkPos)
    (_ : Slice W.SaveableEntity) : GoError :=
  none

/-- `func (NoIOProvider) LoadBlockNBT(ChunkPos) ([]map[string]interface{}, error)`:
`return nil, nil`. -/
def LoadBlockNBT (W : Decls) (_ : NoIOProvider) (_ : ChunkPos) :
    Slice (BlockNBT W) × GoError :=
  (Slice.nil, none)

/-- `func (NoIOProvider) SaveBlockNBT(ChunkPos, []map[string]interface{}) error`:
`return nil`. -/
def SaveBlockNBT (W : Decls) (_ : NoIOProvider) (_ : ChunkPos)
    (_ : Slice (BlockNBT W)) : GoError :=
  none

/-- `func (NoIOProvider) SaveChunk(ChunkPos, *chunk.Chunk) error`: `return nil`. -/
def SaveChunk (W : Decls) (_ : NoIOProvider) (_ : ChunkPos) (_ : Option W.Chunk) : GoError :=
  none

/-- `func (NoIOProvider) LoadChunk(ChunkPos) (*chunk.Chunk, bool, error)`:
`return nil, false, nil`. -/
def LoadChunk (W : Decls) (_ : NoIOProvider) (_ : ChunkPos) :
    Option W.Chunk × Bool × GoError :=
  (none, false, none)

/-- `func (NoIOProvider) Close() error`: `return nil`. -/
def Close (_ : NoIOProvider) : GoError :=
  none

end NoIOProvider

/-! ## Sequences of calls -/

/-- One call of a method of the `Provider` interface, with its arguments. -/
inductive Op (W : Decls) where
  | settings : Op W
  | saveSettings : W.Settings → Op W
  | loadChunk : ChunkPos → Op W
  | saveChunk : ChunkPos → Option W.Chunk → Op W
  | loadEntities : ChunkPos → Op W
  | saveEntities : ChunkPos → Slice W.SaveableEntity → Op W
  | loadBlockNBT : ChunkPos → Op W
  | saveBlockNBT : ChunkPos → Slice (BlockNBT W) → Op W
  | close : Op W

/-- What a call returns to its caller. `done` is the return of `SaveSettings`,
which has no result; `error` is the result of the three saves and of `Close`. -/
inductive Result (W : Decls) where
  | settings : W.Settings → Result W
  | done : Result W
  | chunk : Option W.Chunk × Bool × GoError → Result W
  | entities : Slice W.SaveableEntity × GoError → Result W
  | blockNBT : Slice (BlockNBT W) × GoError → Result W
  | error : GoError → Result W

/-- One call on the provider `p`: the provider after the call and the result.
The receiver is passed by value and has no fields, so the provider after the
call is `p`. -/
def step (W : Decls) (p : NoIOProvider) : Op W → NoIOProvider × Result W
  | .settings => (p, .settings (p.Settings W))
  | .saveSettings s =>
    let _ := p.SaveSettings W s
    (p, .done)
  | .loadChunk pos => (p, .chunk (p.LoadChunk W pos))
  | .saveChunk pos c => (p, .error (p.SaveChunk W pos c))
  | .loadEntities pos => (p, .entities (p.LoadEntities W pos))
  | .saveEntities pos es => (p, .error (p.SaveEntities W pos es))
  | .loadBlockNBT pos => (p, .blockNBT (p.LoadBlockNBT W pos))
  | .saveBlockNBT pos d => (p, .error (p.SaveBlockNBT W pos d))
  | .close => (p, .error p.Close)

/-- The provider after a sequence of calls, made one after the other. -/
def exec (W : Decls) (p : NoIOProvider) : List (Op W) → NoIOProvider
  | [] => p
  | op :: ops => exec W (step W p op).1 ops

/-- The results of a sequence of calls, made one after the other, in order. -/
def run (W : Decls) (p : NoIOProvider) : List (Op W) → List (Result W)
  | [] => []
  | op :: ops => (step W p op).2 :: run W (step W p op).1 ops

/-- The result `r` has the shape of a result of the call `op`. -/
def Result.answers {W : Decls} : Op W → Result W → Prop
  | .settings, .settings _ => True
  | .saveSettings _, .done => True
  | .loadChunk _, .chunk _ => True
  | .saveChunk _ _, .error _ => True
  | .loadEntities _, .entities _ => True
  | .saveEntities _ _, .error _ => True
  | .loadBlockNBT _, .blockNBT _ => True
  | .saveBlockNBT _ _, .error _ => True
  | .close, .error _ => True
  | _, _ => False

/-- The error component of a result; nil for a result that has none. -/
def Result.err {W : Decls} : Result W → GoError
  | .settings _ => none
  | .done => none
  | .chunk r => r.2.2
  | .entities r => r.2
  | .blockNBT r => r.2
  | .error e => e

/-- The result reports no data as present: a `LoadChunk` result has a nil chunk
and `exists = false`, a `LoadEntities` or `LoadBlockNBT` result has length 0. -/
def Result.absent {W : Decls} : Result W → Prop
  | .chunk r => r.1 = none ∧ r.2.1 = false
  | .entities r => r.1.len = 0
  | .blockNBT r => r.1.len = 0
  | _ => True

/-- A concrete choice of the external declarations, for evaluating the embedding:
chunks and settings are numbers, entities are names, the default settings are 0. -/
def sampleDecls : Decls where
  Chunk := Nat
  SaveableEntity := String
  Settings := Nat
  Value := Nat
  defaultSettings := 0

/-! ## Properties -/

/-- A call never changes the provider. -/
theorem step_provider (W : Decls) (p : NoIOProvider) (op : Op W) : (step W p op).1 = p := by
  cases op <;> rfl

/-- A sequence of calls never changes the provider. -/
theorem exec_provider (W : Decls) (p : NoIOProvider) (ops : List (Op W)) : exec W p ops = p := by
  induction ops with
  | nil => rfl
  | cons op ops ih => simp only [exec, step_provider, ih]

/-- `run` lists the results of `step` along the sequence, all on the provider `p`. -/
theorem run_eq_map (W : Decls) (p : NoIOProvider) (ops : List (Op W)) :
    run W p ops = ops.map (fun op => (step W p op).2) := by
  induction ops with
  | nil => rfl
  | cons op ops ih => simp only [run, step_provider, ih, List.map_cons]

/-- Every single call returns a result of its own shape, with a nil error and
reporting no data as present. -/
theorem step_quiet (W : Decls) (p : NoIOProvider) (op : Op W) :
    Result.answers op (step W p op).2 ∧ Result.err (step W p op).2 = none ∧
      Result.absent (step W p op).2 := by
  cases op <;> simp [step, Result.answers, Result.err, Result.absent, NoIOProvider.LoadChunk,
    NoIOProvider.SaveChunk, NoIOProvider.LoadEntities, NoIOProvider.SaveEntities,
    NoIOProvider.LoadBlockNBT, NoIOProvider.SaveBlockNBT, NoIOProvider.Close, Slice.len]

/-- C1: for every chunk position, `LoadChunk` of the null provider returns exactly
a nil chunk, `exists = false` and a nil error. -/
theorem loadChunk_not_found (W : Decls) (p : NoIOProvider) (pos : ChunkPos) :
    NoIOProvider.LoadChunk W p pos = (none, false, none) :=
  rfl

/-- C2: for every position `c` and every chunk `x`, nil or not, `SaveChunk c x`
returns a nil error and the `LoadChunk c` that follows it returns a nil chunk,
`exists = false` and a nil error, which is also what `LoadChunk c` returned
before the save. -/
theorem saveChunk_not_visible (W : Decls) (p : NoIOProvider) (c : ChunkPos)
    (x : Option W.Chunk) :
    run W p [Op.loadChunk c, Op.saveChunk c x, Op.loadChunk c] =
        [Result.chunk (none, false, none), Result.error none,
          Result.chunk (none, false, none)] ∧
      (step W (step W p (Op.saveChunk c x)).1 (Op.loadChunk c)).2 =
        (step W p (Op.loadChunk c)).2 :=
  ⟨rfl, rfl⟩

/-- C3: for every chunk position, `LoadEntities` returns a sequence of length 0
with a nil error, and `LoadBlockNBT` returns a sequence of length 0 with a nil
error. -/
theorem loadEntities_loadBlockNBT_empty (W : Decls) (p : NoIOProvider) (pos : ChunkPos) :
    ((NoIOProvider.LoadEntities W p pos).1.len = 0 ∧
        (NoIOProvider.LoadEntities W p pos).2 = none) ∧
      ((NoIOProvider.LoadBlockNBT W p pos).1.len = 0 ∧
        (NoIOProvider.LoadBlockNBT W p pos).2 = none) :=
  ⟨⟨rfl, rfl⟩, ⟨rfl, rfl⟩⟩

/-- C4: `SaveChunk`, `SaveEntities` and `SaveBlockNBT` return a nil error for
every position, every chunk (nil included), every entity sequence and every
sequence of metadata maps (nil and empty included). -/
theorem saves_succeed (W : Decls) (p : NoIOProvider) (pos : ChunkPos) (c : Option W.Chunk)
    (es : Slice W.SaveableEntity) (d : Slice (BlockNBT W)) :
    NoIOProvider.SaveChunk W p pos c = none ∧ NoIOProvider.SaveEntities W p pos es = none ∧
      NoIOProvider.SaveBlockNBT W p pos d = none :=
  ⟨rfl, rfl, rfl⟩

/-- C5: `Settings()` returns `defaultSettings()` on every call: whatever calls
`before` were made ahead of a first call of `Settings()` and whatever calls
`between` were made from it to a second one, both calls return the default
settings, and so the same value. -/
theorem settings_fixed_default (W : Decls) (p : NoIOProvider) (before between : List (Op W)) :
    NoIOProvider.Settings W p = W.defaultSettings ∧
      (step W (exec W p before) Op.settings).2 = Result.settings W.defaultSettings ∧
      (step W (exec W p (before ++ Op.settings :: between)) Op.settings).2 =
        Result.settings W.defaultSettings ∧
      (step W (exec W p before) Op.settings).2 =
        (step W (exec W p (before ++ Op.settings :: between)) Op.settings).2 :=
  ⟨rfl, rfl, rfl, rfl⟩

/-- C6: `SaveSettings` is a no-op. For every settings value `s`, the `Settings()`
called after `SaveSettings s` returns the default settings, so it returns `s`
only when `s` is the default itself, and every sequence of calls returns after
`SaveSettings s` the results it returns without it. -/
theorem saveSettings_noop (W : Decls) (p : NoIOProvider) (s : W.Settings) :
    run W p [Op.saveSettings s, Op.settings] =
        [Result.done, Result.settings W.defaultSettings] ∧
      (NoIOProvider.Settings W (step W p (Op.saveSettings s)).1 = s ↔
        s = W.defaultSettings) ∧
      (∀ op : Op W, (step W (step W p (Op.saveSettings s)).1 op).2 = (step W p op).2) ∧
      (∀ ops : List (Op W), run W (step W p (Op.saveSettings s)).1 ops = run W p ops) := by
  refine ⟨rfl, ?_, fun _ => rfl, fun _ => rfl⟩
  simp only [NoIOProvider.Settings]
  exact eq_comm

/-- C7: `Close()` returns a nil error on a provider on which nothing was called
before, and after every sequence of earlier calls, an earlier `Close` included. -/
theorem close_succeeds (W : Decls) (p : NoIOProvider) (ops : List (Op W)) :
    NoIOProvider.Close p = none ∧
      (step W (NoIOProvider.mk) Op.close).2 = Result.error none ∧
      (step W (exec W p ops) Op.close).2 = Result.error none ∧
      (step W (exec W p (ops ++ [Op.close])) Op.close).2 = Result.error none :=
  ⟨rfl, rfl, rfl, rfl⟩

/-- C8: along every finite sequence of calls with arbitrary arguments, each call
returns a result of its own shape whose error is nil and which reports no data
as present: a `LoadChunk` result has a nil chunk and `exists = false`, a
`LoadEntities` or `LoadBlockNBT` result is a sequence of length 0. -/
theorem never_errors_never_present (W : Decls) (p : NoIOProvider) (ops : List (Op W)) :
    List.Forall₂ (fun op r => Result.answers op r ∧ Result.err r = none ∧ Result.absent r)
      ops (run W p ops) := by
  rw [run_eq_map]
  induction ops with
  | nil => exact List.Forall₂.nil
  | cons op ops ih => exact List.Forall₂.cons (step_quiet W p op) ih

/-- C9: for every position `c`, every non-empty entity sequence `es` and every
empty one `emp` (the nil slice or a slice of length 0): after `SaveEntities c es`
and then `SaveEntities c emp`, both of which return a nil error, `LoadEntities c`
returns a sequence of length 0 and a nil error. -/
theorem saveEntities_empty_clears (W : Decls) (p : NoIOProvider) (c : ChunkPos)
    (es emp : Slice W.SaveableEntity) (_hes : 0 < es.len) (_hemp : emp.len = 0) :
    (step W p (Op.saveEntities c es)).2 = Result.error none ∧
      (step W (exec W p [Op.saveEntities c es]) (Op.saveEntities c emp)).2 =
        Result.error none ∧
      (NoIOProvider.LoadEntities W
          (exec W p [Op.saveEntities c es, Op.saveEntities c emp]) c).1.len = 0 ∧
      (NoIOProvider.LoadEntities W
          (exec W p [Op.saveEntities c es, Op.saveEntities c emp]) c).2 = none :=
  ⟨rfl, rfl, rfl, rfl⟩

/-- C6 at a concrete input: with numbers as settings and 0 as the default, saving
7 and then reading the settings returns 0, which is not 7. -/
theorem saveSettings_noop_witness :
    run sampleDecls NoIOProvider.mk [Op.saveSettings (7 : Nat), Op.settings] =
        [Result.done, Result.settings (0 : Nat)] ∧
      ¬ NoIOProvider.Settings sampleDecls
          (step sampleDecls NoIOProvider.mk (Op.saveSettings (7 : Nat))).1 = (7 : Nat) :=
  ⟨(saveSettings_noop sampleDecls NoIOProvider.mk (7 : Nat)).1,
    fun h => absurd ((saveSettings_noop sampleDecls NoIOProvider.mk (7 : Nat)).2.1.mp h)
      (show ¬ (7 : Nat) = (0 : Nat) by decide)⟩

/-- C9 at a concrete input: at position (3, -2), after saving the entities
"E1", "E2" and then the empty sequence, `LoadEntities` returns the nil slice,
of length 0, and a nil error. -/
theorem saveEntities_empty_clears_witness :
    0 < (Slice.ofList ["E1", "E2"]).len ∧ (Slice.ofList ([] : List String)).len = 0 ∧
      (NoIOProvider.LoadEntities sampleDecls
          (exec sampleDecls NoIOProvider.mk
            [Op.saveEntities ⟨3, -2⟩ (Slice.ofList ["E1", "E2"]),
              Op.saveEntities ⟨3, -2⟩ (Slice.ofList [])]) ⟨3, -2⟩).1.len = 0 :=
  ⟨by decide, rfl,
    (saveEntities_empty_clears sampleDecls NoIOProvider.mk ⟨3, -2⟩ (Slice.ofList ["E1", "E2"])
      (Slice.ofList []) (by decide) rfl).2.2.1⟩

end world
